import Mathlib

/-!
Shallow embedding of `src/src-tauri/src/lib.rs`, the native entry point of the
Panoptic desktop application shell, together with theorems settling the
specification claims about it.

The file models:
* the build-time package version and the `get_app_version` command,
* the host builder chain constructed in `run` (plugin list, setup hook,
  invoke handler, the final `.run(..).expect(..)`),
* the debug-only setup closure, as a trace of its effects,
* the host lifecycle and command-table registration contracts that the code
  delegates to the application framework, modelled from the specification
  where the deciding code is not part of the source tree.
-/

set_option autoImplicit false

namespace Panoptic

/-- Modelled from the spec: the package version from the build metadata
(`Cargo.toml`, which is not under `src/`).  The spec describes it as the
semantic-version string configured for the build (e.g. "1.2.3"), read at
compile time, so it is modelled as a MAJOR.MINOR.PATCH triple. -/
structure PackageVersion where
  major : Nat
  minor : Nat
  patch : Nat
  deriving DecidableEq, Repr

/-- Rendering of the semantic version as the string embedded in the binary. -/
def PackageVersion.render (v : PackageVersion) : String :=
  toString v.major ++ "." ++ toString v.minor ++ "." ++ toString v.patch

/-- Build-time metadata baked into the binary at compile time. -/
structure BuildMeta where
  version : PackageVersion
  deriving DecidableEq, Repr

/-- The compile-time constant `env!("CARGO_PKG_VERSION")`: the version string
embedded in the binary at build time. -/
def BuildMeta.CARGO_PKG_VERSION (m : BuildMeta) : String :=
  m.version.render

/-- Translated from `get_app_version` (src/src-tauri/src/lib.rs lines 4-7):
`env!("CARGO_PKG_VERSION").to_string()`.  The body reads only the build-time
constant; `to_string` on a string slice is the identity on its contents. -/
def get_app_version (m : BuildMeta) : String :=
  m.CARGO_PKG_VERSION

/-- Modelled from the spec: the mutable runtime state of the process visible
to dispatched command handlers (the host dispatches UI-originated command
invocations to the command table).  `get_app_version` reads only the fixed
build metadata; `mutableData` stands for all other (prior) runtime state. -/
structure RuntimeState where
  buildMeta : BuildMeta
  mutableData : List String
  deriving DecidableEq, Repr

/-- A command handler as dispatched by the host: it receives the runtime
state and either returns a string reply together with the successor state, or
fails. -/
def CommandHandler : Type :=
  RuntimeState → Except String (String × RuntimeState)

/-- The command-table entry generated for `get_app_version`: the command takes
no arguments, cannot fail, and leaves the runtime state untouched. -/
def get_app_version_handler : CommandHandler :=
  fun s => Except.ok (get_app_version s.buildMeta, s)

/-- A capability provider attached in `run`
(src/src-tauri/src/lib.rs lines 13-20). -/
inductive Plugin where
  | opener
  | sql
  | os
  | http
  | clipboardManager
  | dialog
  | fs
  | notificationPlugin
  deriving DecidableEq, Repr

/-- A webview window, identified by its label. -/
structure WebviewWindow where
  label : String
  deriving DecidableEq, Repr

/-- The app handle passed to the setup closure: the set of webview windows
existing at setup time. -/
structure App where
  webviewWindows : List WebviewWindow
  deriving DecidableEq, Repr

/-- `app.get_webview_window(label)`: look up a webview window by label. -/
def App.get_webview_window (app : App) (label : String) : Option WebviewWindow :=
  app.webviewWindows.find? (fun w => w.label == label)

/-- An observable effect performed by the setup closure. -/
inductive SetupEffect where
  | lookupWindow (label : String)
  | openDevtools (label : String)
  deriving DecidableEq, Repr

/-- How the setup closure finishes: it either panics (an `unwrap` on `None`)
or returns a `Result` value to the host. -/
inductive SetupOutcome where
  | panicked
  | returned (r : Except String Unit)
  deriving Repr

/-- Translated from the setup closure (src/src-tauri/src/lib.rs lines 22-29).
Under `cfg(debug_assertions)` it runs
`app.get_webview_window("main").unwrap()` followed by
`window.open_devtools()`; in a release build that block is compiled out.
Every non-panicking path ends in `Ok(())`.  The first component is the trace
of effects performed. -/
def setupClosure (debug_assertions : Bool) (app : App) :
    List SetupEffect × SetupOutcome :=
  if debug_assertions then
    match app.get_webview_window "main" with
    | some w =>
        ([SetupEffect.lookupWindow "main", SetupEffect.openDevtools w.label],
         SetupOutcome.returned (Except.ok ()))
    | none =>
        ([SetupEffect.lookupWindow "main"], SetupOutcome.panicked)
  else
    ([], SetupOutcome.returned (Except.ok ()))

/-- Number of devtools-open requests in a setup effect trace. -/
def countDevtools (tr : List SetupEffect) : Nat :=
  tr.countP (fun e =>
    match e with
    | SetupEffect.openDevtools _ => true
    | _ => false)

/-- The host builder assembled in `run`: the ordered plugin list, the
optional setup hook and the registered command handlers.  Each builder method
is a pure configuration step on this record. -/
structure Builder where
  plugins : List Plugin
  setupHook : Option (Bool → App → List SetupEffect × SetupOutcome)
  handlers : List (String × CommandHandler)

/-- `tauri::Builder::default()`: no plugins, no setup hook, no commands. -/
def Builder.default : Builder :=
  { plugins := [], setupHook := none, handlers := [] }

/-- `.plugin(p)`: attach one capability provider, after those already
attached. -/
def Builder.plugin (b : Builder) (p : Plugin) : Builder :=
  { b with plugins := b.plugins ++ [p] }

/-- `.setup(f)`: install the one-shot setup hook. -/
def Builder.setup (b : Builder)
    (f : Bool → App → List SetupEffect × SetupOutcome) : Builder :=
  { b with setupHook := some f }

/-- `.invoke_handler(tauri::generate_handler![...])`: register the command
table. -/
def Builder.invoke_handler (b : Builder)
    (hs : List (String × CommandHandler)) : Builder :=
  { b with handlers := hs }

/-- `tauri::generate_handler![get_app_version]`: the command table of the
application, mapping each command name to its handler. -/
def generatedHandlers : List (String × CommandHandler) :=
  [("get_app_version", get_app_version_handler)]

/-- Translated from `run` (src/src-tauri/src/lib.rs lines 11-31): the builder
value handed to `.run(tauri::generate_context!())`, with every chained call
in source order. -/
def panopticBuilder : Builder :=
  ((((((((((Builder.default.plugin
    Plugin.opener).plugin
    Plugin.sql).plugin
    Plugin.os).plugin
    Plugin.http).plugin
    Plugin.clipboardManager).plugin
    Plugin.notificationPlugin).plugin
    Plugin.dialog).plugin
    Plugin.fs).setup
    setupClosure).invoke_handler
    generatedHandlers)

/-- Result of the framework's blocking run loop, which is external to this
code: either the host ran and exited normally (all windows closed), or
starting/running the host failed with an error. -/
inductive HostOutcome where
  | normalExit
  | failed (e : String)
  deriving DecidableEq, Repr

/-- How the process ends: a normal exit, or a panic carrying the `expect`
diagnostic together with the underlying error. -/
inductive ProcessExit where
  | normal
  | panicked (expectMsg : String) (err : String)
  deriving DecidableEq, Repr

/-- The name of the application, as it appears in the fatal diagnostic. -/
def appName : String := "Panoptic"

/-- Translated from `run` (src/src-tauri/src/lib.rs lines 32-33):
`.run(tauri::generate_context!()).expect("error while running Panoptic")`.
`outcome` abstracts the framework-owned run loop's result; `expect` turns an
error into a panic with the fixed diagnostic and is a no-op on success. -/
def run (outcome : HostOutcome) : ProcessExit :=
  match outcome with
  | HostOutcome.normalExit => ProcessExit.normal
  | HostOutcome.failed e => ProcessExit.panicked "error while running Panoptic" e

/-- One observable phase of the host lifecycle. -/
inductive HostEvent where
  | attachPlugin (p : Plugin)
  | constructHost
  | invokeSetup
  | startEventLoop
  deriving DecidableEq, Repr

/-- Modelled from the spec: the host lifecycle protocol, which is owned by
the external framework and absent from `src/`.  Plugins are attached in
registration order as pure configuration steps, the host is then fully
constructed, the one-shot setup hook (when installed) is invoked exactly
once, and only then does the event loop start. -/
def hostTrace (b : Builder) : List HostEvent :=
  b.plugins.map HostEvent.attachPlugin
    ++ [HostEvent.constructHost]
    ++ (match b.setupHook with
        | some _ => [HostEvent.invokeSetup]
        | none => [])
    ++ [HostEvent.startEventLoop]

/-- Modelled from the spec: command-table registration, whose deciding code
(the framework's handler-generation macro) is absent from `src/`.  A second
registration under an already-used name is rejected with an error at
build/startup time; it never overwrites an existing entry. -/
def registerCommands :
    List (String × CommandHandler) → Except String (List (String × CommandHandler))
  | [] => Except.ok []
  | (n, h) :: rest =>
    match registerCommands rest with
    | Except.error e => Except.error e
    | Except.ok tbl =>
        if tbl.any (fun p => p.1 == n) then
          Except.error ("duplicate command: " ++ n)
        else
          Except.ok ((n, h) :: tbl)

/-! ## Helper lemmas -/

theorem render_length_pos (v : PackageVersion) : 0 < v.render.length := by
  have h : ".".length = 1 := rfl
  simp only [PackageVersion.render, String.length_append]
  omega

theorem render_ne_empty (v : PackageVersion) : v.render ≠ "" := by
  intro h
  have hp := render_length_pos v
  rw [h] at hp
  simp at hp

theorem registerCommands_eq_ok (cs : List (String × CommandHandler))
    (h : (cs.map Prod.fst).Nodup) : registerCommands cs = Except.ok cs := by
  induction cs with
  | nil => rfl
  | cons p rest ih =>
    obtain ⟨n, f⟩ := p
    rw [List.map_cons, List.nodup_cons] at h
    have hany : rest.any (fun q => q.1 == n) = false := by
      rw [List.any_eq_false]
      intro q hq
      simp only [beq_iff_eq]
      intro hqn
      have hm : q.1 ∈ rest.map Prod.fst := List.mem_map_of_mem Prod.fst hq
      rw [hqn] at hm
      exact h.1 hm
    simp [registerCommands, ih h.2, hany]

theorem registerCommands_eq_error (cs : List (String × CommandHandler))
    (h : ¬ (cs.map Prod.fst).Nodup) :
    ∃ e, registerCommands cs = Except.error e := by
  induction cs with
  | nil => exact absurd List.nodup_nil h
  | cons p rest ih =>
    obtain ⟨n, f⟩ := p
    rw [List.map_cons, List.nodup_cons] at h
    by_cases hr : (rest.map Prod.fst).Nodup
    · have hn : n ∈ rest.map Prod.fst := by
        by_contra hc
        exact h ⟨hc, hr⟩
      obtain ⟨q, hq, hqn⟩ := List.mem_map.mp hn
      refine ⟨"duplicate command: " ++ n, ?_⟩
      have hany : rest.any (fun q => q.1 == n) = true := by
        rw [List.any_eq_true]
        exact ⟨q, hq, by simp [hqn]⟩
      simp [registerCommands, registerCommands_eq_ok rest hr, hany]
    · obtain ⟨e, he⟩ := ih hr
      exact ⟨e, by rw [registerCommands, he]⟩

theorem registerCommands_ok_inv (cs tbl : List (String × CommandHandler))
    (h : registerCommands cs = Except.ok tbl) :
    tbl = cs ∧ (cs.map Prod.fst).Nodup := by
  by_cases hn : (cs.map Prod.fst).Nodup
  · rw [registerCommands_eq_ok cs hn] at h
    exact ⟨(Except.ok.injEq _ _ ▸ h).symm, hn⟩
  · obtain ⟨e, he⟩ := registerCommands_eq_error cs hn
    rw [he] at h
    exact absurd h (by simp)

/-! ## Claim theorems -/

/-- C1: `get_app_version` takes no inputs beyond the process state, returns
exactly the version string embedded in the binary at build time, that string
is non-empty, the call cannot fail, and it leaves the runtime state unchanged
(no side effects, no dependency on prior state). -/
theorem c1_get_app_version_contract (s : RuntimeState) :
    get_app_version_handler s = Except.ok (s.buildMeta.CARGO_PKG_VERSION, s) ∧
    get_app_version s.buildMeta = s.buildMeta.CARGO_PKG_VERSION ∧
    get_app_version s.buildMeta ≠ "" :=
  ⟨rfl, rfl, render_ne_empty s.buildMeta.version⟩

theorem c1_witness :
    get_app_version_handler ⟨⟨⟨1, 2, 3⟩⟩, []⟩ =
      Except.ok ((⟨⟨1, 2, 3⟩⟩ : BuildMeta).CARGO_PKG_VERSION,
        (⟨⟨⟨1, 2, 3⟩⟩, []⟩ : RuntimeState)) ∧
    get_app_version ⟨⟨1, 2, 3⟩⟩ = (⟨⟨1, 2, 3⟩⟩ : BuildMeta).CARGO_PKG_VERSION ∧
    get_app_version ⟨⟨1, 2, 3⟩⟩ ≠ "" :=
  c1_get_app_version_contract ⟨⟨⟨1, 2, 3⟩⟩, []⟩

/-- C2: any two invocations of `get_app_version` within the same build (i.e.
on states sharing the binary's build metadata) return the same value, and each
invocation leaves its state unchanged: the command is deterministic,
idempotent and side-effect-free, so order of invocation cannot matter. -/
theorem c2_get_app_version_deterministic (s₁ s₂ : RuntimeState)
    (h : s₁.buildMeta = s₂.buildMeta) :
    ∃ v, get_app_version_handler s₁ = Except.ok (v, s₁) ∧
      get_app_version_handler s₂ = Except.ok (v, s₂) := by
  refine ⟨get_app_version s₁.buildMeta, rfl, ?_⟩
  simp [get_app_version_handler, h]

theorem c2_witness :
    ∃ v, get_app_version_handler ⟨⟨⟨1, 2, 3⟩⟩, []⟩ =
        Except.ok (v, (⟨⟨⟨1, 2, 3⟩⟩, []⟩ : RuntimeState)) ∧
      get_app_version_handler ⟨⟨⟨1, 2, 3⟩⟩, ["prior", "state"]⟩ =
        Except.ok (v, (⟨⟨⟨1, 2, 3⟩⟩, ["prior", "state"]⟩ : RuntimeState)) :=
  c2_get_app_version_deterministic ⟨⟨⟨1, 2, 3⟩⟩, []⟩
    ⟨⟨⟨1, 2, 3⟩⟩, ["prior", "state"]⟩ rfl

/-- C3: the capability providers are attached to the host builder
sequentially, in exactly the fixed order opener, structured-storage (SQL),
OS-info, HTTP client, clipboard, notifications, dialog, filesystem: the
builder's plugin list is exactly that sequence, and the host lifecycle trace
attaches them one by one in that order before anything else happens. -/
theorem c3_plugin_order :
    panopticBuilder.plugins =
      [Plugin.opener, Plugin.sql, Plugin.os, Plugin.http,
       Plugin.clipboardManager, Plugin.notificationPlugin, Plugin.dialog,
       Plugin.fs] ∧
    hostTrace panopticBuilder =
      [Plugin.opener, Plugin.sql, Plugin.os, Plugin.http,
       Plugin.clipboardManager, Plugin.notificationPlugin, Plugin.dialog,
       Plugin.fs].map HostEvent.attachPlugin
        ++ [HostEvent.constructHost, HostEvent.invokeSetup,
            HostEvent.startEventLoop] :=
  ⟨rfl, rfl⟩

/-- C4: in a debug build the setup hook looks up the window labelled "main";
if it exists the devtools are requested exactly once and setup returns
normally, and if it is absent the `unwrap` panics, so startup does not
continue normally. -/
theorem c4_debug_setup (app : App) :
    (∀ w, app.get_webview_window "main" = some w →
      setupClosure true app =
        ([SetupEffect.lookupWindow "main", SetupEffect.openDevtools w.label],
         SetupOutcome.returned (Except.ok ())) ∧
      countDevtools (setupClosure true app).1 = 1) ∧
    (app.get_webview_window "main" = none →
      setupClosure true app =
        ([SetupEffect.lookupWindow "main"], SetupOutcome.panicked)) := by
  constructor
  · intro w hw
    have hs : setupClosure true app =
        ([SetupEffect.lookupWindow "main", SetupEffect.openDevtools w.label],
         SetupOutcome.returned (Except.ok ())) := by
      simp [setupClosure, hw]
    exact ⟨hs, by rw [hs]; rfl⟩
  · intro hn
    simp [setupClosure, hn]

theorem c4_witness :
    (setupClosure true ⟨[⟨"main"⟩]⟩ =
      ([SetupEffect.lookupWindow "main", SetupEffect.openDevtools "main"],
       SetupOutcome.returned (Except.ok ())) ∧
    countDevtools (setupClosure true ⟨[⟨"main"⟩]⟩).1 = 1) ∧
    setupClosure true ⟨[]⟩ =
      ([SetupEffect.lookupWindow "main"], SetupOutcome.panicked) :=
  ⟨(c4_debug_setup ⟨[⟨"main"⟩]⟩).1 ⟨"main"⟩ rfl,
   (c4_debug_setup ⟨[]⟩).2 rfl⟩

/-- C5: in a release build (no debug assertions) the setup closure performs
no effect at all — it neither looks a window up nor opens devtools — whatever
windows exist, and returns normally. -/
theorem c5_release_skips_devtools (app : App) :
    setupClosure false app = ([], SetupOutcome.returned (Except.ok ())) :=
  rfl

/-- C6: if the host run loop fails, `run` ends the process with the fixed
fatal diagnostic "error while running Panoptic", which is "error while
running " followed by the application's name; on a normal exit no fatal
diagnostic is produced. -/
theorem c6_exit_behavior :
    (∀ e, run (HostOutcome.failed e) =
      ProcessExit.panicked ("error while running " ++ appName) e) ∧
    run HostOutcome.normalExit = ProcessExit.normal :=
  ⟨fun _ => rfl, rfl⟩

/-- C7: command registration rejects duplicate names with an error at
build/startup time, never overwriting an entry — a successful registration
returns the entries exactly as given and guarantees their names are unique —
and the application's own table, built once from its single command,
registers successfully with unique names. -/
theorem c7_command_table_unique :
    (∀ cs tbl, registerCommands cs = Except.ok tbl →
      tbl = cs ∧ (cs.map Prod.fst).Nodup) ∧
    (∀ cs, ¬ (cs.map Prod.fst).Nodup →
      ∃ e, registerCommands cs = Except.error e) ∧
    registerCommands generatedHandlers = Except.ok generatedHandlers ∧
    (generatedHandlers.map Prod.fst).Nodup := by
  refine ⟨registerCommands_ok_inv, registerCommands_eq_error, rfl, ?_⟩
  simp [generatedHandlers]

theorem c7_witness :
    ∃ e, registerCommands
      [("get_app_version", get_app_version_handler),
       ("get_app_version", get_app_version_handler)] = Except.error e :=
  c7_command_table_unique.2.1 _ (by simp)

/-- C8: in the host lifecycle, the setup hook of the application's builder is
invoked exactly once, after every plugin attachment and the host construction
and before the event loop starts; and attaching a plugin is a pure
configuration step on the builder record, performing no effect. -/
theorem c8_setup_once_before_loop :
    hostTrace panopticBuilder =
      panopticBuilder.plugins.map HostEvent.attachPlugin
        ++ [HostEvent.constructHost, HostEvent.invokeSetup,
            HostEvent.startEventLoop] ∧
    (hostTrace panopticBuilder).count HostEvent.invokeSetup = 1 ∧
    (∀ b p, Builder.plugin b p = { b with plugins := b.plugins ++ [p] }) :=
  ⟨rfl, by decide, fun _ _ => rfl⟩

/-- C9: `get_app_version` is total: on every runtime state it returns
normally with a string (no error branch is reachable), and its value is the
compile-time constant `CARGO_PKG_VERSION` converted to a string. -/
theorem c9_get_app_version_total (s : RuntimeState) :
    (∃ v, get_app_version_handler s = Except.ok (v, s)) ∧
    get_app_version s.buildMeta = s.buildMeta.CARGO_PKG_VERSION :=
  ⟨⟨get_app_version s.buildMeta, rfl⟩, rfl⟩

/-- C10: whenever the setup closure returns a value (rather than panicking)
that value is `Ok(())` — no path signals an error through the return value —
and it panics exactly when the build is a debug build and no window labelled
"main" exists. -/
theorem c10_setup_returns_ok (d : Bool) (app : App) :
    (∀ r, (setupClosure d app).2 = SetupOutcome.returned r →
      r = Except.ok ()) ∧
    ((setupClosure d app).2 = SetupOutcome.panicked ↔
      d = true ∧ app.get_webview_window "main" = none) := by
  cases d with
  | false => simp [setupClosure]
  | true =>
    cases hm : app.get_webview_window "main" with
    | some w => simp [setupClosure, hm]
    | none => simp [setupClosure, hm]

theorem c10_witness :
    (Except.ok () : Except String Unit) = Except.ok () ∧
    ((setupClosure true ⟨[]⟩).2 = SetupOutcome.panicked ↔
      true = true ∧ App.get_webview_window ⟨[]⟩ "main" = none) :=
  ⟨(c10_setup_returns_ok false ⟨[]⟩).1 (Except.ok ()) rfl,
   (c10_setup_returns_ok true ⟨[]⟩).2⟩

end Panoptic
